import Mathlib

/-!
Verification of the llamaindex_agent orchestrator (src/llamaindex_agent/main.py).

The development shallowly embeds the locally authored logic of the program:
the three tool functions (calculadora, buscar_web_simulada, buscar_conocimiento),
the startup sequence MultiAgentSystem.inicializar, the model-switch branch of
iniciar_interfaz_consola, and the model selection in main. External effects
(subprocess calls, the LLM client, the vector index) are represented by
boolean outcome parameters or by function parameters; Python floats are
modelled as rationals with the IEEE power operation and the float formatting
kept as abstract function parameters, so every theorem below holds for every
choice of those externals.
-/

namespace LlamaIndexAgent

/-- Python list/str helper: decides whether the first character list is a
prefix of the second (the starting segment of a substring scan). -/
def pyStartsWith : List Char → List Char → Bool
  | [], _ => true
  | _ :: _, [] => false
  | a :: as, b :: bs => a == b && pyStartsWith as bs

/-- Embedding of the Python `in` operator on strings, as contiguous
substring search over character lists. -/
def pyContains : List Char → List Char → Bool
  | n, [] => n.isEmpty
  | n, c :: cs => pyStartsWith n (c :: cs) || pyContains n cs

/-- Embedding of Python str.lower (ASCII range, which covers every keyword
and literal the program uses). -/
def pyLower (s : String) : String := String.mk (s.data.map Char.toLower)

/-- Embedding of `needle in haystack` on Python strings. -/
def pyIn (needle haystack : String) : Bool := pyContains needle.data haystack.data

/-- Embedding of Python sep.join(lista). -/
def pyJoin (sep : String) : List String → String
  | [] => ""
  | [x] => x
  | x :: y :: ys => x ++ sep ++ pyJoin sep (y :: ys)

/-- Embedding of the Python float modulo `a % b` for b different from 0:
the result a - b * floor(a / b) carries the sign of b. -/
def pyModQ (a b : ℚ) : ℚ := a - b * ((⌊a / b⌋ : ℤ) : ℚ)

/-- Body of the `try` block of MultiAgentSystem.calculadora (main.py lines
431 to 452). Numbers are rationals; `fmt` abstracts the Python float
rendering used in each f-string, and `fpow` abstracts the IEEE `**`
operation. A `.error` value models an exception raised inside the `try`
block (only `a % 0` and `1 / 0` can raise there); `.ok` is a normal return. -/
def calculadoraBody (fmt : ℚ → String) (fpow : ℚ → ℚ → ℚ) (operacion : String) (a b : ℚ) :
    Except String String :=
  if pyLower operacion = "suma" then
    Except.ok (fmt a ++ " + " ++ fmt b ++ " = " ++ fmt (a + b))
  else if pyLower operacion = "resta" then
    Except.ok (fmt a ++ " - " ++ fmt b ++ " = " ++ fmt (a - b))
  else if pyLower operacion = "multiplicacion" then
    Except.ok (fmt a ++ " * " ++ fmt b ++ " = " ++ fmt (a * b))
  else if pyLower operacion = "division" then
    if b = 0 then Except.ok ("Error: No se puede dividir por cero")
    else Except.ok (fmt a ++ " / " ++ fmt b ++ " = " ++ fmt (a / b))
  else if pyLower operacion = "potencia" then
    Except.ok (fmt a ++ " ^ " ++ fmt b ++ " = " ++ fmt (fpow a b))
  else if pyLower operacion = "raiz" then
    if a < 0 ∧ pyModQ b 2 = 0 then
      Except.ok ("Error: No se puede calcular raíz par de un número negativo")
    else if b = 0 then Except.error ("float division by zero")
    else Except.ok ("Raíz " ++ fmt b ++ " de " ++ fmt a ++ " = " ++ fmt (fpow a (1 / b)))
  else if pyLower operacion = "modulo" ∨ pyLower operacion = "resto" then
    if b = 0 then Except.error ("float modulo")
    else Except.ok (fmt a ++ " % " ++ fmt b ++ " = " ++ fmt (pyModQ a b))
  else
    Except.ok ("Operación \x27" ++ operacion ++ "\x27 no reconocida. Opciones válidas: " ++
      "suma, resta, multiplicacion, division, potencia, raiz, modulo")

/-- MultiAgentSystem.calculadora: the `try` body wrapped in the
`except Exception` handler that turns any raised exception into the
generic error string (main.py lines 453 to 454). -/
def calculadora (fmt : ℚ → String) (fpow : ℚ → ℚ → ℚ) (operacion : String) (a b : ℚ) : String :=
  match calculadoraBody fmt fpow operacion a b with
  | Except.ok s => s
  | Except.error e => "Error en la calculadora: " ++ e

/-- The fact sentence stored under the keyword python in
buscar_web_simulada (main.py line 467). -/
def hecho_python : String :=
  "Python es un lenguaje de programación versátil usado en ciencia de datos, web y automatización."

/-- The fixed keyword to fact mapping of MultiAgentSystem.buscar_web_simulada
(main.py lines 466 to 480), in dictionary insertion order. -/
def base_conocimiento : List (String × String) :=
  [("python", hecho_python),
   ("javascript",
    "JavaScript es un lenguaje de programación para desarrollo web que permite crear páginas interactivas."),
   ("llama index",
    "LlamaIndex es una biblioteca para crear aplicaciones con LLMs y fuentes de datos personalizadas."),
   ("agentes",
    "Los agentes de IA son sistemas autónomos que perciben, deciden y actúan para lograr objetivos."),
   ("rag",
    "RAG (Retrieval Augmented Generation) combina recuperación de datos con generación de texto."),
   ("ollama",
    "Ollama es una herramienta para ejecutar modelos de lenguaje de forma local sin necesidad de servicios en la nube."),
   ("phi",
    "Phi es un modelo de lenguaje pequeño desarrollado por Microsoft, diseñado para funcionar en ordenadores personales con recursos limitados."),
   ("llama",
    "LLaMA (Large Language Model Meta AI) es una familia de modelos de lenguaje desarrollados por Meta AI (Facebook)."),
   ("mistral",
    "Mistral es una familia de modelos de lenguaje desarrollados por Mistral AI, con versiones optimizadas para diferentes tamaños y casos de uso."),
   ("gemma",
    "Gemma es un modelo de lenguaje desarrollado por Google, optimizado para ejecutarse en computadoras con recursos limitados."),
   ("cpu",
    "La CPU (Unidad Central de Procesamiento) es el \x27cerebro\x27 del ordenador que ejecuta instrucciones."),
   ("gpu",
    "La GPU (Unidad de Procesamiento Gráfico) está optimizada para operaciones paralelas y es ideal para IA."),
   ("multiagente",
    "Un sistema multiagente es una red de agentes de IA que colaboran para resolver problemas complejos.")]

/-- MultiAgentSystem.buscar_web_simulada (main.py lines 456 to 490): the
for loop accumulating every fact whose keyword occurs case-insensitively
in the query, then either the not-found string or the newline join. -/
def buscar_web_simulada (query : String) : String :=
  let resultados := base_conocimiento.foldl
    (fun acc kv => if pyIn (pyLower kv.1) (pyLower query) then acc ++ [kv.2] else acc) []
  if resultados = [] then "No se encontró información sobre: " ++ query
  else pyJoin "\n" resultados

/-- Restatement of buscar_web_simulada following the wording of the spec:
all matching fact sentences, in mapping-iteration order, joined with
newline separators, or the not-found string when nothing matches. Used to
compare the loop in the source against the spec description. -/
def buscar_web_spec (query : String) : String :=
  let hechos := (base_conocimiento.filter
    (fun kv => pyIn (pyLower kv.1) (pyLower query))).map Prod.snd
  if hechos = [] then "No se encontró información sobre: " ++ query
  else pyJoin "\n" hechos

/-- A value retrieved by a retriever object: either a real index node,
which carries a text attribute, or a plain Python dict, which does not
(the stub retriever of crear_indice returns dicts). -/
inductive Chunk where
  | nodo (texto : String)
  | dict (entradas : List (String × String))

/-- Embedding of the attribute access node.text in buscar_conocimiento:
on a real node it yields the text, on a dict it raises AttributeError. -/
def getattrTexto : Chunk → Except String String
  | Chunk.nodo t => Except.ok t
  | Chunk.dict _ => Except.error ("\x27dict\x27 object has no attribute \x27text\x27")

/-- The stub retriever installed by crear_indice when index construction
fails (main.py lines 296 to 302): for every query it returns one dict
with a text key holding the placeholder sentence. -/
def recuperador_simulado (_query : String) : List Chunk :=
  [Chunk.dict [("text", "No se pudo crear un índice real, esta es una respuesta simulada.")]]

/-- MultiAgentSystem.buscar_conocimiento (main.py lines 399 to 417),
parametrised by the retrieve method of the current retriever. The `try`
body retrieves, returns the fixed not-found string on an empty result,
and otherwise joins the node texts; any exception (in particular the
AttributeError from node.text on a dict) is caught and rendered as the
generic error string. -/
def buscar_conocimiento (retrieve : String → List Chunk) (query : String) : String :=
  let cuerpo : Except String String :=
    let resultados := retrieve query
    if resultados.isEmpty then
      Except.ok ("No se encontró información relevante en la base de conocimientos.")
    else
      match resultados.mapM getattrTexto with
      | Except.ok textos => Except.ok (pyJoin "\n\n" textos)
      | Except.error e => Except.error e
  match cuerpo with
  | Except.ok s => s
  | Except.error e => "Error al buscar en la base de conocimientos: " ++ e

/-- The setup operations a run of MultiAgentSystem.inicializar can invoke,
in the order they appear in the source. -/
inductive Paso where
  | verificarOllama
  | verificarModelo
  | configurarModelo
  | crearDocumentosEjemplo
  | crearIndice
  | definirHerramientas
  | crearAgentes
deriving DecidableEq

/-- MultiAgentSystem.inicializar (main.py lines 521 to 550), parametrised
by the boolean outcomes of the three fallible steps it branches on
(verificar_modelo, configurar_modelo, crear_agentes) and by the outcome
of crear_indice, which the source ignores. Returns the boolean result
together with the trace of operations invoked. The call to
verificar_ollama at the top of the method is commented out in the source,
so no run ever performs it. -/
def inicializar (vModelo cModelo _iIndice gAgentes : Bool) : Bool × List Paso :=
  if !vModelo then (false, [Paso.verificarModelo])
  else if !cModelo then (false, [Paso.verificarModelo, Paso.configurarModelo])
  else if !gAgentes then
    (false, [Paso.verificarModelo, Paso.configurarModelo, Paso.crearDocumentosEjemplo,
      Paso.crearIndice, Paso.definirHerramientas, Paso.crearAgentes])
  else
    (true, [Paso.verificarModelo, Paso.configurarModelo, Paso.crearDocumentosEjemplo,
      Paso.crearIndice, Paso.definirHerramientas, Paso.crearAgentes])

/-- The step p is invoked strictly before the step q in the trace t. -/
def invocadoAntes (t : List Paso) (p q : Paso) : Prop :=
  ∃ i j : Fin t.length, (i : ℕ) < (j : ℕ) ∧ t.get i = p ∧ t.get j = q

/-- Exit status of main (main.py lines 663 to 674): sys.exit(1) when
inicializar reports failure, normal termination (status 0) otherwise. -/
def codigoSalida (inicializado : Bool) : Nat := if inicializado then 0 else 1

/-- The mutable session fields touched by the model-switch command:
model_name, plus references (as numeric identities) to the configured
LLM client and to the coordinator agent, through which the two
specialist agents are reachable. -/
structure SistemaState where
  model_name : String
  llm : Option Nat
  coordinador : Option Nat
deriving DecidableEq

/-- The `cambiar <nombre>` branch of iniciar_interfaz_consola (main.py
lines 610 to 622): model_name is reassigned first, then verificar_modelo
and configurar_modelo run (short-circuit); only when both succeed are the
tools and agents rebuilt. vOk, cOk and gOk are the outcomes of
verificar_modelo, configurar_modelo and crear_agentes; nuevoLlm and
nuevoCoord are the identities of the freshly built client and
coordinator. configurar_modelo assigns the llm field only when the
client construction succeeds, and crear_agentes assigns the coordinador
field only when agent construction succeeds. -/
def cambiar_modelo (st : SistemaState) (nuevo : String) (vOk cOk gOk : Bool)
    (nuevoLlm nuevoCoord : Nat) : SistemaState :=
  let st1 := SistemaState.mk nuevo st.llm st.coordinador
  if vOk then
    if cOk then
      let st2 := SistemaState.mk st1.model_name (some nuevoLlm) st1.coordinador
      if gOk then SistemaState.mk st2.model_name st2.llm (some nuevoCoord) else st2
    else st1
  else st1

/-- The model allow-list of main (main.py line 645). -/
def modelos_disponibles : List String := ["phi", "llama3", "mistral", "gemma"]

/-- The hardcoded default model name of main (main.py line 646). -/
def modelo_predeterminado : String := "phi3"

/-- The model-selection step of main (main.py lines 649 to 654): the
first positional argument is used exactly when present and in the
allow-list; otherwise the default is substituted and a warning is
printed (second component true). argv includes the program name at
index 0. -/
def elegir_modelo (argv : List String) : String × Bool :=
  match argv[1]? with
  | some m =>
    if m ∈ modelos_disponibles then (m, false) else (modelo_predeterminado, true)
  | none => (modelo_predeterminado, true)

/-- pyStartsWith decides the list-prefix relation. -/
theorem pyStartsWith_iff (n h : List Char) : pyStartsWith n h = true ↔ n <+: h := by
  induction n generalizing h with
  | nil => simp [pyStartsWith]
  | cons a as ih =>
    cases h with
    | nil => simp [pyStartsWith]
    | cons b bs =>
      rw [pyStartsWith, Bool.and_eq_true, beq_iff_eq, ih]
      constructor
      · rintro ⟨rfl, hp⟩
        rcases hp with ⟨t, rfl⟩
        exact ⟨t, rfl⟩
      · intro hp
        rcases hp with ⟨t, ht⟩
        injection ht with h1 h2
        exact ⟨h1, ⟨t, h2⟩⟩

/-- pyContains decides the contiguous-sublist relation, hence pyIn is a
faithful substring test. -/
theorem pyContains_iff (n h : List Char) : pyContains n h = true ↔ n <:+: h := by
  induction h with
  | nil => simp [pyContains, List.isEmpty_iff]
  | cons c cs ih =>
    simp [pyContains, pyStartsWith_iff, ih, List.infix_cons_iff]

/-- Every element of a joined list occurs contiguously in the join. -/
theorem pyJoin_mem_sublista (sep : String) (l : List String) (x : String) (hx : x ∈ l) :
    x.data <:+: (pyJoin sep l).data := by
  induction l with
  | nil => simp at hx
  | cons a as ih =>
    cases as with
    | nil =>
      simp at hx
      subst hx
      exact List.infix_refl _
    | cons b bs =>
      rcases List.mem_cons.mp hx with h | h
      · subst h
        show x.data <:+: (x ++ sep ++ pyJoin sep (b :: bs)).data
        rw [String.data_append, String.data_append, List.append_assoc]
        exact ⟨[], sep.data ++ (pyJoin sep (b :: bs)).data, by simp⟩
      · have hh := ih h
        refine List.IsInfix.trans hh ?_
        show (pyJoin sep (b :: bs)).data <:+: (a ++ sep ++ pyJoin sep (b :: bs)).data
        rw [String.data_append, String.data_append]
        exact ⟨a.data ++ sep.data, [], by simp⟩

/-- The accumulator loop of buscar_web_simulada computes the filtered,
projected list appended to the starting accumulator. -/
theorem foldl_filtra (q : String) (l : List (String × String)) (acc : List String) :
    l.foldl (fun acc kv => if pyIn (pyLower kv.1) (pyLower q) then acc ++ [kv.2] else acc) acc
      = acc ++ (l.filter (fun kv => pyIn (pyLower kv.1) (pyLower q))).map Prod.snd := by
  induction l generalizing acc with
  | nil => simp
  | cons kv t ih =>
    by_cases h : pyIn (pyLower kv.1) (pyLower q) = true
    · simp [List.foldl_cons, List.filter_cons, h, ih]
    · simp [List.foldl_cons, List.filter_cons, h, ih]

/-- Claim C1, counterexample: in a run of inicializar in which every step
succeeds, verificar_ollama is not invoked at all, in particular not
before verificar_modelo; the claimed ordering fails. -/
theorem c1_counterexample :
    ¬ invocadoAntes (inicializar true true true true).2 Paso.verificarOllama Paso.verificarModelo ∧
    Paso.verificarOllama ∉ (inicializar true true true true).2 := by
  unfold invocadoAntes
  decide

/-- Claim C1, amended: inicializar never performs the bootstrap step: the
call to verificar_ollama is commented out in the source, so no run of
inicializar invokes the runtime-verification operation, and the first
operation invoked is verificar_modelo. -/
theorem c1_sin_bootstrap (v c i g : Bool) :
    Paso.verificarOllama ∉ (inicializar v c i g).2 ∧
    (inicializar v c i g).2.head? = some Paso.verificarModelo := by
  cases v <;> cases c <;> cases i <;> cases g <;> decide

/-- Claim C2: when the model switch fails in verification or in
configuration, the coordinator reference (through which both specialist
agents are reachable) and the LLM client are left intact, while
model_name already holds the new name, reassigned before verification. -/
theorem c2_cambiar_fallo_marco (st : SistemaState) (nuevo : String) (vOk cOk gOk : Bool)
    (nuevoLlm nuevoCoord : Nat) (h : vOk = false ∨ cOk = false) :
    (cambiar_modelo st nuevo vOk cOk gOk nuevoLlm nuevoCoord).coordinador = st.coordinador ∧
    (cambiar_modelo st nuevo vOk cOk gOk nuevoLlm nuevoCoord).llm = st.llm ∧
    (cambiar_modelo st nuevo vOk cOk gOk nuevoLlm nuevoCoord).model_name = nuevo := by
  rcases h with h | h
  · subst h
    simp [cambiar_modelo]
  · subst h
    cases vOk <;> simp [cambiar_modelo]

/-- Claim C2, witness at a concrete failed switch (verification fails). -/
theorem c2_cambiar_fallo_marco_witness :
    (cambiar_modelo (SistemaState.mk ("phi") (some 1) (some 2)) ("llama9") false true true 7 8).coordinador
        = some 2 ∧
    (cambiar_modelo (SistemaState.mk ("phi") (some 1) (some 2)) ("llama9") false true true 7 8).llm
        = some 1 ∧
    (cambiar_modelo (SistemaState.mk ("phi") (some 1) (some 2)) ("llama9") false true true 7 8).model_name
        = "llama9" :=
  c2_cambiar_fallo_marco (SistemaState.mk ("phi") (some 1) (some 2)) ("llama9") false true true
    7 8 (Or.inl rfl)

/-- Claim C3: inicializar fails, and main exits with non-zero status,
exactly when verificar_modelo, configurar_modelo or crear_agentes fails;
the outcome of crear_indice never influences the result. -/
theorem c3_inicializar_aborta (v c i g : Bool) :
    ((inicializar v c i g).1 = false ↔ (v = false ∨ c = false ∨ g = false)) ∧
    (codigoSalida (inicializar v c i g).1 ≠ 0 ↔ (v = false ∨ c = false ∨ g = false)) ∧
    (inicializar v c i g).1 = (inicializar v c (!i) g).1 := by
  cases v <;> cases c <;> cases i <;> cases g <;> decide

/-- Claim C4: with the stub retriever installed after a failed index
build, buscar_conocimiento does return a string and propagates no
exception, but the string is not the placeholder chunk: the stub yields
plain dicts, the node.text access raises AttributeError, and the generic
handler renders the error string instead. -/
theorem c4_stub_dict_sin_atributo :
    buscar_conocimiento recuperador_simulado ("cualquier consulta")
        = "Error al buscar en la base de conocimientos: " ++
          "\x27dict\x27 object has no attribute \x27text\x27" ∧
    buscar_conocimiento recuperador_simulado ("cualquier consulta")
        ≠ "No se pudo crear un índice real, esta es una respuesta simulada." ∧
    pyIn ("No se pudo crear un índice real")
        (buscar_conocimiento recuperador_simulado ("cualquier consulta")) = false := by
  decide

/-- Claim C6: the calculator rejects division by zero and even roots of
negative numbers with the documented error strings; in both cases the
try body returns normally (no exception is raised), for every float
formatting and power operation. -/
theorem c6_calculadora_guardas (fmt : ℚ → String) (fpow : ℚ → ℚ → ℚ) (a c d : ℚ)
    (hc : c < 0) (hd : pyModQ d 2 = 0) :
    calculadora fmt fpow ("division") a 0 = "Error: No se puede dividir por cero" ∧
    calculadoraBody fmt fpow ("division") a 0
        = Except.ok ("Error: No se puede dividir por cero") ∧
    calculadora fmt fpow ("raiz") c d
        = "Error: No se puede calcular raíz par de un número negativo" ∧
    calculadoraBody fmt fpow ("raiz") c d
        = Except.ok ("Error: No se puede calcular raíz par de un número negativo") := by
  refine ⟨?_, ?_, ?_, ?_⟩ <;>
    simp [calculadora, calculadoraBody, pyLower, hc, hd]

/-- Claim C6, witness at division 5 / 0 and the square root of -4. -/
theorem c6_calculadora_guardas_witness :
    calculadora (fun _ => "") (fun _ _ => 0) ("division") 5 0
        = "Error: No se puede dividir por cero" ∧
    calculadoraBody (fun _ => "") (fun _ _ => 0) ("division") 5 0
        = Except.ok ("Error: No se puede dividir por cero") ∧
    calculadora (fun _ => "") (fun _ _ => 0) ("raiz") (-4) 2
        = "Error: No se puede calcular raíz par de un número negativo" ∧
    calculadoraBody (fun _ => "") (fun _ _ => 0) ("raiz") (-4) 2
        = Except.ok ("Error: No se puede calcular raíz par de un número negativo") :=
  c6_calculadora_guardas (fun _ => "") (fun _ _ => 0) 5 (-4) 2 (by decide)
    (by unfold pyModQ; norm_num)

/-- Claim C7: buscar_web_simulada returns exactly the facts of the
keywords matching case-insensitively as substrings, joined with newline
separators in mapping order (the loop refines the spec description); a
query containing the word Python in any letter case yields a result in
which the fixed Python fact occurs; a query matching no keyword yields
the not-found string. -/
theorem c7_buscar_web (q q1 q2 s : String) (hs : s.data <:+: q1.data)
    (hsl : pyLower s = "python")
    (h2 : ∀ kv ∈ base_conocimiento, pyIn (pyLower kv.1) (pyLower q2) = false) :
    buscar_web_simulada q = buscar_web_spec q ∧
    pyIn hecho_python (buscar_web_simulada q1) = true ∧
    buscar_web_simulada q2 = "No se encontró información sobre: " ++ q2 := by
  have hrefina : ∀ t : String, buscar_web_simulada t = buscar_web_spec t := by
    intro t
    unfold buscar_web_simulada buscar_web_spec
    rw [foldl_filtra]
    simp
  refine ⟨hrefina q, ?_, ?_⟩
  · have hmapa : (pyLower q1).data = q1.data.map Char.toLower := rfl
    have hpy : pyIn ("python") (pyLower q1) = true := by
      rw [pyIn, pyContains_iff]
      have hmapeado := List.IsInfix.map Char.toLower hs
      have hsdata : s.data.map Char.toLower = ("python" : String).data := by
        have : (pyLower s).data = ("python" : String).data := by rw [hsl]
        exact this
      rw [hmapa, ← hsdata]
      exact hmapeado
    have hcond : pyIn (pyLower (("python", hecho_python) : String × String).1) (pyLower q1)
        = true := hpy
    have hmem : (("python", hecho_python) : String × String) ∈ base_conocimiento :=
      List.mem_cons_self _ _
    have hfact : hecho_python ∈ (base_conocimiento.filter
        (fun kv => pyIn (pyLower kv.1) (pyLower q1))).map Prod.snd :=
      List.mem_map.2 ⟨("python", hecho_python), List.mem_filter.2 ⟨hmem, hcond⟩, rfl⟩
    have hne : (base_conocimiento.filter
        (fun kv => pyIn (pyLower kv.1) (pyLower q1))).map Prod.snd ≠ [] :=
      List.ne_nil_of_mem hfact
    rw [hrefina q1, buscar_web_spec]
    simp only [if_neg hne]
    rw [pyIn, pyContains_iff]
    exact pyJoin_mem_sublista _ _ _ hfact
  · have hnil : base_conocimiento.filter (fun kv => pyIn (pyLower kv.1) (pyLower q2)) = [] := by
      rw [List.filter_eq_nil_iff]
      intro kv hkv
      simp [h2 kv hkv]
    rw [hrefina q2, buscar_web_spec, hnil]
    simp

/-- Claim C7, witness: a query with PYTHON in capitals contains the
Python fact, and a query matching no keyword gets the not-found string. -/
theorem c7_buscar_web_witness :
    buscar_web_simulada ("nada") = buscar_web_spec ("nada") ∧
    pyIn hecho_python (buscar_web_simulada ("Me gusta PYTHON")) = true ∧
    buscar_web_simulada ("zzz-inexistente")
        = "No se encontró información sobre: " ++ "zzz-inexistente" :=
  c7_buscar_web ("nada") ("Me gusta PYTHON") ("zzz-inexistente") ("PYTHON")
    (by decide) (by decide) (by decide)

/-- Claim C8: main uses the first positional argument exactly when it is
in the allow-list; an absent or unrecognised argument is replaced by the
hardcoded default phi3 together with a warning. -/
theorem c8_elegir_modelo (argv : List String) (m : String) :
    (argv[1]? = some m → m ∈ modelos_disponibles → elegir_modelo argv = (m, false)) ∧
    (argv[1]? = none → elegir_modelo argv = (modelo_predeterminado, true)) ∧
    (argv[1]? = some m → m ∉ modelos_disponibles → elegir_modelo argv = (modelo_predeterminado, true)) := by
  refine ⟨?_, ?_, ?_⟩
  · intro h hm
    simp [elegir_modelo, h, hm]
  · intro h
    simp [elegir_modelo, h]
  · intro h hm
    simp [elegir_modelo, h, hm]

/-- Claim C8, witness: a listed model is taken verbatim, a missing or
unlisted argument falls back to phi3 with a warning. -/
theorem c8_elegir_modelo_witness :
    elegir_modelo (["main.py", "llama3"]) = ("llama3", false) ∧
    elegir_modelo (["main.py"]) = (modelo_predeterminado, true) ∧
    elegir_modelo (["main.py", "gpt4"]) = (modelo_predeterminado, true) :=
  ⟨(c8_elegir_modelo (["main.py", "llama3"]) ("llama3")).1 rfl (by decide),
   (c8_elegir_modelo (["main.py"]) ("llama3")).2.1 rfl,
   (c8_elegir_modelo (["main.py", "gpt4"]) ("gpt4")).2.2 rfl (by decide)⟩

/-- Claim C9: an unrecognised operation name makes the calculator return
the fixed string listing the valid operations, through a normal return
of the try body (no exception), for all operands, formattings and power
operations. -/
theorem c9_operacion_no_reconocida (fmt : ℚ → String) (fpow : ℚ → ℚ → ℚ) (op : String)
    (a b : ℚ)
    (h : pyLower op ∉ (["suma", "resta", "multiplicacion", "division", "potencia",
      "raiz", "modulo", "resto"] : List String)) :
    calculadora fmt fpow op a b
        = "Operación \x27" ++ op ++ "\x27 no reconocida. Opciones válidas: " ++
          "suma, resta, multiplicacion, division, potencia, raiz, modulo" ∧
    calculadoraBody fmt fpow op a b
        = Except.ok ("Operación \x27" ++ op ++ "\x27 no reconocida. Opciones válidas: " ++
          "suma, resta, multiplicacion, division, potencia, raiz, modulo") := by
  simp only [List.mem_cons, not_or] at h
  obtain ⟨h1, h2, h3, h4, h5, h6, h7, h8, -⟩ := h
  refine ⟨?_, ?_⟩ <;> simp [calculadora, calculadoraBody, h1, h2, h3, h4, h5, h6, h7, h8]

/-- Claim C9, witness at the operation desconocida. -/
theorem c9_operacion_no_reconocida_witness :
    calculadora (fun _ => "") (fun _ _ => 0) ("desconocida") 1 1
        = "Operación \x27" ++ "desconocida" ++ "\x27 no reconocida. Opciones válidas: " ++
          "suma, resta, multiplicacion, division, potencia, raiz, modulo" ∧
    calculadoraBody (fun _ => "") (fun _ _ => 0) ("desconocida") 1 1
        = Except.ok ("Operación \x27" ++ "desconocida" ++ "\x27 no reconocida. Opciones válidas: " ++
          "suma, resta, multiplicacion, division, potencia, raiz, modulo") :=
  c9_operacion_no_reconocida (fun _ => "") (fun _ _ => 0) ("desconocida") 1 1 (by decide)

/-- Claim C10: modulo (or its synonym resto) with second operand zero
raises ZeroDivisionError inside the try body, which the generic handler
converts to the generic calculator error string; unlike division, the
result is not the specific divide-by-zero message. -/
theorem c10_modulo_por_cero (fmt : ℚ → String) (fpow : ℚ → ℚ → ℚ) (a : ℚ) (op : String)
    (h : pyLower op = "modulo" ∨ pyLower op = "resto") :
    calculadoraBody fmt fpow op a 0 = Except.error ("float modulo") ∧
    calculadora fmt fpow op a 0 = "Error en la calculadora: " ++ "float modulo" ∧
    calculadora fmt fpow op a 0 ≠ "Error: No se puede dividir por cero" := by
  rcases h with h | h <;>
    refine ⟨?_, ?_, ?_⟩ <;>
      simp [calculadora, calculadoraBody, h]

/-- Claim C10, witness at modulo 7 % 0. -/
theorem c10_modulo_por_cero_witness :
    calculadoraBody (fun _ => "") (fun _ _ => 0) ("modulo") 7 0
        = Except.error ("float modulo") ∧
    calculadora (fun _ => "") (fun _ _ => 0) ("modulo") 7 0
        = "Error en la calculadora: " ++ "float modulo" ∧
    calculadora (fun _ => "") (fun _ _ => 0) ("modulo") 7 0
        ≠ "Error: No se puede dividir por cero" :=
  c10_modulo_por_cero (fun _ => "") (fun _ _ => 0) 7 ("modulo") (Or.inl rfl)

end LlamaIndexAgent
